import Mathlib

/-!
Shallow embedding of `app/src/ui/main-process-proxy.ts`: the typed IPC proxy
layer of the renderer process.  The transport (`ipcRenderer.send` / `invoke` /
`sendSync`) is modelled as an explicit parameter, and each proxy call is given
an effect-trace semantics: the list of transport events it issues, paired with
the caller-visible result.  `invokeProxy` returns the transport's asynchronous
result (`Except` models a settled promise); `sendProxy` returns `Unit`
synchronously; `sendWillQuitSync` issues the blocking `sendSync` primitive.
-/

/-- The plain payload object built by `getIpcFriendlyError`: exactly the three
fields `message`, `name` and `stack` (never the original `Error` object). -/
structure IpcFriendlyError where
  message : String
  name : String
  stack : Option String
deriving DecidableEq

/-- Untyped values crossing the IPC boundary. -/
inductive Arg where
  | str : String → Arg
  | nat : Nat → Arg
  | bool : Bool → Arg
  | errPayload : IpcFriendlyError → Arg
  | record : List (String × String) → Arg
deriving DecidableEq

/-- A transport event: one use of an `ipcRenderer` primitive, recording the
channel name and the argument list handed to the transport. -/
inductive Event where
  | send : String → List Arg → Event
  | invoke : String → List Arg → Event
  | sendSync : String → List Arg → Event
deriving DecidableEq

/-- The channel name an event was issued on. -/
def Event.channel : Event → String
  | .send c _ => c
  | .invoke c _ => c
  | .sendSync c _ => c

/-- The argument list an event transmitted. -/
def Event.args : Event → List Arg
  | .send _ a => a
  | .invoke _ a => a
  | .sendSync _ a => a

/-- Whether an event is a use of the blocking `sendSync` primitive. -/
def Event.isSendSync : Event → Bool
  | .sendSync _ _ => true
  | _ => false

/-- The arity guard shared by both proxy builders, the ternary on lines 27 and
54 of the source: `args.length !== numArgs ? args.slice(0, numArgs) : args`. -/
def arityGuard {α : Type} (numArgs : Nat) (args : List α) : List α :=
  if args.length ≠ numArgs then args.take numArgs else args

/-- The duplex transport primitive: `ipcRenderer.invoke` settles with either a
reply payload of type `ρ` or a failure of type `ε`. -/
structure DuplexTransport (ρ ε : Type) where
  invoke : String → List Arg → Except ε ρ

/-- Outcome of a one-way transmission inside the transport; the proxy layer
never looks at it. -/
inductive SendOutcome where
  | delivered : SendOutcome
  | transportFailure : String → SendOutcome
deriving DecidableEq

/-- The simplex transport primitive: `ipcRenderer.send`, fire-and-forget. -/
structure SimplexTransport where
  send : String → List Arg → SendOutcome

/-- `invokeProxy` (source lines 20-30): builds a callable bound to `channel`
and `numArgs`; each call applies the arity guard and returns the transport's
`invoke` result unchanged.  The trace records the single `invoke` event. -/
def invokeProxy {ρ ε : Type} (tr : DuplexTransport ρ ε) (channel : String)
    (numArgs : Nat) : List Arg → List Event × Except ε ρ :=
  fun args₀ =>
    let args := arityGuard numArgs args₀
    ([Event.invoke channel args], tr.invoke channel args)

/-- `sendProxy` (source lines 47-57): builds a callable bound to `channel` and
`numArgs`; each call applies the arity guard, hands the result to the
transport's `send`, discards whatever the transport does with it, and returns
`Unit` synchronously. -/
def sendProxy (tr : SimplexTransport) (channel : String) (numArgs : Nat) :
    List Arg → List Event × Unit :=
  fun args₀ =>
    let args := arityGuard numArgs args₀
    let _ := tr.send channel args
    ([Event.send channel args], ())

/-- `sendWillQuitSync` (source lines 212-215): issues the blocking `sendSync`
primitive on channel `will-quit` with no arguments. -/
def sendWillQuitSync : List Event :=
  [Event.sendSync "will-quit" []]

/-- A JavaScript `Error` as seen by `getIpcFriendlyError`: `message`, `name`
and `stack` are string-or-undefined properties (`none` models `undefined`),
and `stringRep` is the template-literal coercion of the whole error value. -/
structure JSError where
  message : Option String
  name : Option String
  stack : Option String
  stringRep : String
deriving DecidableEq

/-- JavaScript truthiness of a string-or-undefined value: `undefined` and the
empty string are falsy. -/
def jsTruthy : Option String → Bool
  | none => false
  | some s => s != ""

/-- JavaScript template-literal coercion of a string-or-undefined value:
`undefined` prints as the string `undefined`. -/
def jsTemplate : Option String → String
  | none => "undefined"
  | some s => s

/-- The JavaScript `||` operator on a string-or-undefined left operand with a
string fallback. -/
def jsOr (v : Option String) (fallback : String) : String :=
  if jsTruthy v then jsTemplate v else fallback

/-- `getIpcFriendlyError` (source lines 240-246): `message` falls back to the
coercion of the whole error, `name` falls back to the coercion of the `name`
property itself, and a falsy `stack` becomes `undefined`. -/
def getIpcFriendlyError (error : JSError) : IpcFriendlyError :=
  { message := jsOr error.message error.stringRep
    name := jsOr error.name (jsTemplate error.name)
    stack := if jsTruthy error.stack then error.stack else none }

/-- `_reportUncaughtException` (source line 250): `sendProxy` bound to the
`uncaught-exception` channel with arity 1. -/
def _reportUncaughtException (tr : SimplexTransport) : List Arg → List Event × Unit :=
  sendProxy tr "uncaught-exception" 1

/-- `reportUncaughtException` (source lines 252-254). -/
def reportUncaughtException (tr : SimplexTransport) (error : JSError) :
    List Event × Unit :=
  _reportUncaughtException tr [Arg.errPayload (getIpcFriendlyError error)]

/-- `_sendErrorReport` (source line 258): `sendProxy` bound to the
`send-error-report` channel with arity 3. -/
def _sendErrorReport (tr : SimplexTransport) : List Arg → List Event × Unit :=
  sendProxy tr "send-error-report" 3

/-- `sendErrorReport` (source lines 260-268). -/
def sendErrorReport (tr : SimplexTransport) (error : JSError)
    (extra : List (String × String)) (nonFatal : Bool) : List Event × Unit :=
  _sendErrorReport tr
    [Arg.errPayload (getIpcFriendlyError error), Arg.record extra, Arg.bool nonFatal]

/-- A transport whose one-way sends always succeed. -/
def okSimplexTransport : SimplexTransport :=
  ⟨fun _ _ => SendOutcome.delivered⟩

/-- A transport whose one-way sends fail inside the transport. -/
def failSimplexTransport : SimplexTransport :=
  ⟨fun _ _ => SendOutcome.transportFailure "pipe closed"⟩

/-- A duplex transport replying with the number of arguments it received. -/
def lenDuplexTransport : DuplexTransport Nat String :=
  ⟨fun _ args => Except.ok args.length⟩

/-- A duplex transport whose every call fails with a disconnection error. -/
def disconnectedTransport : DuplexTransport Nat String :=
  ⟨fun _ _ => Except.error "process disconnected"⟩

/-- The arity guard is exactly list truncation: the transmitted list is the
prefix of the actuals of length at most the declared arity. -/
theorem arityGuard_eq_take {α : Type} (n : Nat) (A : List α) :
    arityGuard n A = A.take n := by
  unfold arityGuard
  by_cases h : A.length = n
  · subst h
    simp [List.take_length]
  · simp [h]

/-- Length of the guarded list: the minimum of the actual count and the
declared arity. -/
theorem arityGuard_length {α : Type} (n : Nat) (A : List α) :
    (arityGuard n A).length = min A.length n := by
  rw [arityGuard_eq_take, List.length_take, Nat.min_comm]

/-- Claim C1, counterexample: a simplex proxy declared with arity 1, called
with no arguments, transmits an argument list of length 0, not 1 — so the
transmitted length does not always equal the declared arity. -/
theorem transmitted_length_eq_arity_cex :
    ((sendProxy okSimplexTransport "update-menu-state" 1 []).1.map
        (fun e => (Event.args e).length)) ≠ [1] := by
  decide

/-- Claim C1 (amended): for every proxy built by `invokeProxy` or `sendProxy`
with declared arity `n`, and every call with actuals `A`, the transmitted
argument list has length `min (len A) n` — exactly `n` whenever the caller
supplies at least `n` arguments, never more than `n`, but shorter than `n`
when the caller under-supplies. -/
theorem transmitted_length_min {ρ ε : Type} (tr : DuplexTransport ρ ε)
    (tr' : SimplexTransport) (c c' : String) (n n' : Nat) (A A' : List Arg) :
    ((invokeProxy tr c n A).1.map (fun e => (Event.args e).length))
        = [min A.length n] ∧
    ((sendProxy tr' c' n' A').1.map (fun e => (Event.args e).length))
        = [min A'.length n'] := by
  constructor
  · simp [invokeProxy, Event.args, arityGuard_length]
  · simp [sendProxy, Event.args, arityGuard_length]

/-- Claim C2: when the caller supplies at least the declared arity `n`
arguments, both proxy builders transmit exactly the prefix `A[0..n)`, whose
length is exactly `n`; in particular when `len A = n` the transmitted list is
`A` unchanged. -/
theorem transmitted_prefix_exact {ρ ε : Type} (tr : DuplexTransport ρ ε)
    (tr' : SimplexTransport) (c c' : String) (n : Nat) (A : List Arg)
    (h : n ≤ A.length) :
    ((invokeProxy tr c n A).1.map Event.args) = [A.take n] ∧
    ((sendProxy tr' c' n A).1.map Event.args) = [A.take n] ∧
    (A.take n).length = n ∧
    (A.length = n →
      (invokeProxy tr c n A).1.map Event.args = [A] ∧
      (sendProxy tr' c' n A).1.map Event.args = [A]) := by
  refine ⟨?_, ?_, ?_, ?_⟩
  · simp [invokeProxy, Event.args, arityGuard_eq_take]
  · simp [sendProxy, Event.args, arityGuard_eq_take]
  · rw [List.length_take]
    exact Nat.min_eq_left h
  · intro he
    constructor
    · simp [invokeProxy, Event.args, arityGuard, he]
    · simp [sendProxy, Event.args, arityGuard, he]

/-- Claim C2 witness: arity 1, two actual arguments, transmitted list is the
one-element prefix. -/
theorem transmitted_prefix_exact_witness :
    1 ≤ ([Arg.str "folder/path", Arg.nat 9] : List Arg).length ∧
    ((sendProxy okSimplexTransport "show-item-in-folder" 1
        [Arg.str "folder/path", Arg.nat 9]).1.map Event.args)
      = [([Arg.str "folder/path", Arg.nat 9] : List Arg).take 1] :=
  ⟨by decide,
    (transmitted_prefix_exact lenDuplexTransport okSimplexTransport
      "resolve-proxy" "show-item-in-folder" 1
      [Arg.str "folder/path", Arg.nat 9] (by decide)).2.1⟩

/-- Claim C3: the arity guard only truncates and never pads — both builders
transmit the prefix of `A` of length `min (len A) n`, never more than `n`
elements, and when the caller supplies fewer than `n` arguments the
transmitted list is `A` itself, with no elements added. -/
theorem transmitted_truncate_only {ρ ε : Type} (tr : DuplexTransport ρ ε)
    (tr' : SimplexTransport) (c c' : String) (n : Nat) (A : List Arg) :
    ((invokeProxy tr c n A).1.map Event.args) = [A.take n] ∧
    ((sendProxy tr' c' n A).1.map Event.args) = [A.take n] ∧
    (A.take n).length = min A.length n ∧
    (A.take n).length ≤ n ∧
    (A.length < n →
      (invokeProxy tr c n A).1.map Event.args = [A] ∧
      (sendProxy tr' c' n A).1.map Event.args = [A]) := by
  refine ⟨?_, ?_, ?_, ?_, ?_⟩
  · simp [invokeProxy, Event.args, arityGuard_eq_take]
  · simp [sendProxy, Event.args, arityGuard_eq_take]
  · rw [List.length_take]
    exact Nat.min_comm n A.length
  · rw [List.length_take]
    exact Nat.min_le_left n A.length
  · intro hlt
    have htake : A.take n = A := List.take_of_length_le (Nat.le_of_lt hlt)
    exact ⟨by simp [invokeProxy, Event.args, arityGuard_eq_take, htake],
           by simp [sendProxy, Event.args, arityGuard_eq_take, htake]⟩

/-- Claim C3 witness: arity 2, one actual argument — the transmitted list is
the one-element actual list, not padded to length 2. -/
theorem transmitted_truncate_only_witness :
    ([Arg.bool true] : List Arg).length < 2 ∧
    ((sendProxy okSimplexTransport "show-certificate-trust-dialog" 2
        [Arg.bool true]).1.map Event.args) = [[Arg.bool true]] :=
  ⟨by decide,
    ((transmitted_truncate_only lenDuplexTransport okSimplexTransport
        "show-contextual-menu" "show-certificate-trust-dialog" 2
        [Arg.bool true]).2.2.2.2 (by decide)).2⟩

/-- Claim C4: a duplex proxy call resolves with exactly the payload the
transport's `invoke` resolved with — no transformation, wrapping or
substitution of the success value by the proxy layer. -/
theorem invoke_success_passthrough {ρ ε : Type} (tr : DuplexTransport ρ ε)
    (c : String) (n : Nat) (A : List Arg) (v : ρ)
    (h : tr.invoke c (arityGuard n A) = Except.ok v) :
    (invokeProxy tr c n A).2 = Except.ok v := by
  simpa [invokeProxy] using h

/-- Claim C4 witness: a duplex proxy of arity 0 called with three extra
arguments — the transport receives zero arguments and its reply (here the
received argument count, 0) is returned unchanged. -/
theorem invoke_success_passthrough_witness :
    lenDuplexTransport.invoke "is-window-focused"
        (arityGuard 0 [Arg.nat 1, Arg.nat 2, Arg.nat 3]) = Except.ok 0 ∧
    (invokeProxy lenDuplexTransport "is-window-focused" 0
        [Arg.nat 1, Arg.nat 2, Arg.nat 3]).2 = Except.ok 0 :=
  ⟨rfl,
    invoke_success_passthrough lenDuplexTransport "is-window-focused" 0
      [Arg.nat 1, Arg.nat 2, Arg.nat 3] 0 rfl⟩

/-- Claim C5: when the transport's `invoke` fails, the duplex proxy call
fails with the very same failure — the proxy never catches, suppresses or
rewraps it into a different kind. -/
theorem invoke_failure_passthrough {ρ ε : Type} (tr : DuplexTransport ρ ε)
    (c : String) (n : Nat) (A : List Arg) (e : ε)
    (h : tr.invoke c (arityGuard n A) = Except.error e) :
    (invokeProxy tr c n A).2 = Except.error e := by
  simpa [invokeProxy] using h

/-- Claim C5 witness: the transport rejects with a process-disconnected
failure and the proxy's result carries that same failure. -/
theorem invoke_failure_passthrough_witness :
    disconnectedTransport.invoke "open-external"
        (arityGuard 1 [Arg.str "x-github-client://openRepo"])
      = Except.error "process disconnected" ∧
    (invokeProxy disconnectedTransport "open-external" 1
        [Arg.str "x-github-client://openRepo"]).2
      = Except.error "process disconnected" :=
  ⟨rfl,
    invoke_failure_passthrough disconnectedTransport "open-external" 1
      [Arg.str "x-github-client://openRepo"] "process disconnected" rfl⟩

/-- Claim C6: a simplex proxy call issues the transport's `send` exactly once,
with the bound channel name followed by the arity-guarded argument list, and
its caller-visible result is the synchronous `Unit` value (no asynchronous
result to await). -/
theorem send_exactly_once (tr : SimplexTransport) (c : String) (n : Nat)
    (A : List Arg) :
    (sendProxy tr c n A).1 = [Event.send c (arityGuard n A)] ∧
    (sendProxy tr c n A).1.length = 1 ∧
    (sendProxy tr c n A).2 = () :=
  ⟨rfl, rfl, rfl⟩

/-- Claim C7: a simplex proxy call has no return value and no failure surface:
the caller-visible result is always `Unit`, and it is identical for any two
transports — in particular for one whose sends fail — so transmission
failures are unobservable through the proxy. -/
theorem send_no_failure_surface (tr tr' : SimplexTransport) (c : String)
    (n : Nat) (A : List Arg) :
    (sendProxy tr c n A).2 = () ∧ sendProxy tr c n A = sendProxy tr' c n A :=
  ⟨rfl, rfl⟩

/-- Claim C8: a proxy is bound to one channel descriptor at construction:
every call of a callable built from channel `c` and arity `n` transmits on
channel `c` with the arity-`n` guard applied, for any two argument lists `A`
and `B` — the bound channel name and arity never change across calls. -/
theorem proxy_binding_immutable {ρ ε : Type} (tr : DuplexTransport ρ ε)
    (tr' : SimplexTransport) (c c' : String) (n n' : Nat) (A B : List Arg) :
    (invokeProxy tr c n A).1.map Event.channel = [c] ∧
    (invokeProxy tr c n B).1.map Event.channel = [c] ∧
    (invokeProxy tr c n A).1.map Event.args = [arityGuard n A] ∧
    (invokeProxy tr c n B).1.map Event.args = [arityGuard n B] ∧
    (sendProxy tr' c' n' A).1.map Event.channel = [c'] ∧
    (sendProxy tr' c' n' B).1.map Event.channel = [c'] ∧
    (sendProxy tr' c' n' A).1.map Event.args = [arityGuard n' A] ∧
    (sendProxy tr' c' n' B).1.map Event.args = [arityGuard n' B] :=
  ⟨rfl, rfl, rfl, rfl, rfl, rfl, rfl, rfl⟩

/-- Claim C9: `sendWillQuitSync` issues exactly one transport event — the
blocking `sendSync` primitive on channel `will-quit` with zero arguments —
and uses neither the non-blocking `send` nor `invoke` primitives. -/
theorem sendWillQuitSync_uses_sendSync_only :
    sendWillQuitSync = [Event.sendSync "will-quit" []] ∧
    sendWillQuitSync.all Event.isSendSync = true ∧
    sendWillQuitSync.map Event.args = [[]] :=
  ⟨rfl, rfl, rfl⟩

/-- Claim C10: in the payload built by `getIpcFriendlyError`, a falsy `name`
property falls back to the string coercion of that falsy name itself — the
string `undefined` when `name` is undefined, the empty string when `name` is
empty — unlike `message`, whose fallback is the coercion of the whole error;
and what `reportUncaughtException` and `sendErrorReport` transmit is the
plain three-field payload object, never the original error value. -/
theorem ipcFriendlyError_payload (e : JSError) (ex : List (String × String))
    (nf : Bool) :
    (e.name = none → (getIpcFriendlyError e).name = "undefined") ∧
    (e.name = some "" → (getIpcFriendlyError e).name = "") ∧
    (jsTruthy e.name = false →
      (getIpcFriendlyError e).name = jsTemplate e.name) ∧
    (jsTruthy e.message = false →
      (getIpcFriendlyError e).message = e.stringRep) ∧
    (reportUncaughtException okSimplexTransport e).1
      = [Event.send "uncaught-exception"
          [Arg.errPayload (getIpcFriendlyError e)]] ∧
    (sendErrorReport okSimplexTransport e ex nf).1
      = [Event.send "send-error-report"
          [Arg.errPayload (getIpcFriendlyError e), Arg.record ex,
            Arg.bool nf]] := by
  refine ⟨?_, ?_, ?_, ?_, ?_, ?_⟩
  · intro h
    simp [getIpcFriendlyError, jsOr, jsTruthy, jsTemplate, h]
  · intro h
    simp [getIpcFriendlyError, jsOr, jsTruthy, jsTemplate, h]
  · intro h
    simp [getIpcFriendlyError, jsOr, h]
  · intro h
    simp [getIpcFriendlyError, jsOr, h]
  · rfl
  · rfl

/-- Claim C10 witness: an error value with undefined `name` and undefined
`message` — the payload's `name` is the string `undefined` while its
`message` is the coercion of the whole error. -/
theorem ipcFriendlyError_payload_witness :
    (⟨none, none, none, "Error: boom"⟩ : JSError).name = none ∧
    (getIpcFriendlyError ⟨none, none, none, "Error: boom"⟩).name
      = "undefined" ∧
    (getIpcFriendlyError ⟨none, none, none, "Error: boom"⟩).message
      = "Error: boom" :=
  ⟨rfl,
    (ipcFriendlyError_payload ⟨none, none, none, "Error: boom"⟩ [] false).1
      rfl,
    (ipcFriendlyError_payload
        ⟨none, none, none, "Error: boom"⟩ [] false).2.2.2.1 rfl⟩
